import Mathlib

/-!
# rpi-ws281x native binding (`src/rpi-ws281x.cc`)

Shallow embedding of the Node add-on that drives a WS281x LED strip through the
`rpi_ws281x` C library.  The module keeps its whole state in C globals
(`ledstring`, `channel0data`, `channel1data`, `activeChannel`); here they are the
fields of `State`, and every exported function is a pure function
`State → arguments → State × Completion`.

Conventions of the embedding

* C `int` fields are `Int`.  JavaScript numbers are integer valued and enter the
  C side through `Int32Value()` / `Uint32Value()`, which reduce modulo `2^32`.
  The `int` expressions of `render`, the cast `(int)Length` and the product
  `4 * count`, are 32-bit two's complement values (`intOf`).
* `leds` is the byte content found at the `leds` pointer; a null or released
  pointer is the empty list.  `memcpy` and `memset` rewrite the first `n` bytes
  of that content when the `n` bytes are there; a size that is negative as an
  `int` (huge as a `size_t`) or that reaches past the source or the destination
  is a memory fault, and the call that made it ends as `Completion.crashed`.
* The calls into the hardware library are recorded, in program order and with a
  snapshot of the descriptor they receive, in `State.trace`; the writes of
  `memcpy` and `memset` are recorded in the same trace.
-/

namespace RpiWs281x

/-! ## Constants of the source -/

def DEFAULT_TARGET_FREQ : Int := 800000
def DEFAULT_CH0_GPIO_PIN : Int := 18
def DEFAULT_CH1_GPIO_PIN : Int := 13
def DEFAULT_DMANUM : Int := 5

/-! ## JavaScript values -/

/-- Conversion `v8::Value::Int32Value()` of an integer valued number: reduction
modulo `2^32` into the signed range `[-2^31, 2^31)`. -/
def Int32Value (v : Int) : Int := (v + 2147483648) % 4294967296 - 2147483648

/-- Value of a C `int` expression whose exact result is `v`: 32-bit two's
complement, so a cast or a product beyond `2^31 - 1` wraps around. -/
def intOf (v : Int) : Int := (v + 2147483648) % 4294967296 - 2147483648

/-- Conversion `v8::Value::Uint32Value()` of an integer valued number. -/
def Uint32Value (v : Int) : Int := v % 4294967296

/-- Own properties of the `config` object that `init` looks at: `none` when
`HasOwnProperty` is false, `some v` when the property holds the number `v`. -/
structure Config where
  frequency : Option Int
  dmaNum : Option Int
  pwmChannel : Option Int
  gpioPin : Option Int
  invert : Option Int
  brightness : Option Int
deriving DecidableEq, Repr

/-- An object with none of the recognised own properties. -/
def Config.empty : Config :=
  { frequency := none, dmaNum := none, pwmChannel := none, gpioPin := none,
    invert := none, brightness := none }

/-- The JavaScript values the add-on distinguishes. -/
inductive JsValue where
  /-- a number (integer valued) -/
  | number (v : Int)
  /-- a node `Buffer` with its bytes -/
  | buffer (bytes : List Nat)
  /-- any other object, with the own properties `init` reads -/
  | object (config : Config)
  /-- a value that is neither a number nor an object (undefined, string, ...) -/
  | other
deriving DecidableEq, Repr

/-- Test `v8::Value::IsObject()` followed by `ToObject()`: a `Buffer` is an
object too, one without the recognised own properties. -/
def JsValue.asObject : JsValue → Option Config
  | .object config => some config
  | .buffer _ => some Config.empty
  | _ => none

/-- How a call of an exported function ends. -/
inductive Completion where
  /-- normal return, `info.GetReturnValue().SetUndefined()` -/
  | returned
  /-- exception raised with `Nan::ThrowTypeError` -/
  | threwTypeError (msg : String)
  /-- exception raised with `Nan::ThrowError` -/
  | threwError (msg : String)
  /-- the process dies in the call, on an access outside a buffer -/
  | crashed
deriving DecidableEq, Repr

/-! ## Descriptors -/

/-- Modelled from the spec: the fields of `ws2811_channel_t` the add-on uses
(`rpi_ws281x/ws2811.h` is not under src/): pin, invert flag, LED count and
brightness are integers, `leds` is the frame buffer of 32-bit words, kept here
as its bytes. -/
structure ws2811_channel_t where
  gpionum : Int
  invert : Int
  count : Int
  brightness : Int
  leds : List Nat
deriving DecidableEq, Repr

/-- Modelled from the spec: the fields of `ws2811_t` the add-on uses
(`rpi_ws281x/ws2811.h` is not under src/); `channel0` and `channel1` are the
two entries of the array `channel`. -/
structure ws2811_t where
  freq : Int
  dmanum : Int
  channel0 : ws2811_channel_t
  channel1 : ws2811_channel_t
deriving DecidableEq, Repr

/-- Read `l.channel[i]`.  The array has the two entries 0 and 1; the source only
ever indexes it with `activeChannel`, which it only ever sets to 0 or 1. -/
def ws2811_t.channel (l : ws2811_t) (i : Int) : ws2811_channel_t :=
  if i = 1 then l.channel1 else l.channel0

/-- Write `l.channel[i] = c`. -/
def ws2811_t.setChannel (l : ws2811_t) (i : Int) (c : ws2811_channel_t) : ws2811_t :=
  if i = 1 then { l with channel1 := c } else { l with channel0 := c }

/-- Size in bytes of one `ws2811_led_t` (a 32-bit word). -/
def sizeofLed : Int := 4

/-- One observable step of the add-on, in program order. -/
inductive Event where
  /-- `memcpy` of `numBytes` bytes into the frame buffer of `channel` -/
  | memcpy (channel : Int) (numBytes : Int)
  /-- `memset` to zero of `numBytes` bytes of the frame buffer of `channel` -/
  | memset (channel : Int) (numBytes : Int)
  /-- call `ws2811_init(&ledstring)`, with the descriptor passed -/
  | ws2811_init (d : ws2811_t)
  /-- call `ws2811_wait(&ledstring)`, with the descriptor passed -/
  | ws2811_wait (d : ws2811_t)
  /-- call `ws2811_render(&ledstring)`, with the descriptor passed -/
  | ws2811_render (d : ws2811_t)
  /-- call `ws2811_fini(&ledstring)`, with the descriptor passed -/
  | ws2811_fini (d : ws2811_t)
deriving DecidableEq, Repr

/-- The C globals of the module, and the trace of what it did so far. -/
structure State where
  ledstring : ws2811_t
  channel0data : ws2811_channel_t
  channel1data : ws2811_channel_t
  activeChannel : Int
  trace : List Event
deriving DecidableEq, Repr

/-- A zero-initialised channel structure. -/
def zeroChannel : ws2811_channel_t :=
  { gpionum := 0, invert := 0, count := 0, brightness := 0, leds := [] }

/-- The module right after loading: C globals are zero-initialised. -/
def State.fresh : State :=
  { ledstring := { freq := 0, dmanum := 0, channel0 := zeroChannel, channel1 := zeroChannel },
    channel0data := zeroChannel, channel1data := zeroChannel,
    activeChannel := 0, trace := [] }

/-- The channel the single-channel API addresses, `ledstring.channel[activeChannel]`. -/
def State.active (s : State) : ws2811_channel_t := s.ledstring.channel s.activeChannel

/-- The other channel of the pair. -/
def State.nonActive (s : State) : ws2811_channel_t := s.ledstring.channel (1 - s.activeChannel)

/-- Assignment to `ledstring.channel[activeChannel]`. -/
def State.setActive (s : State) (c : ws2811_channel_t) : State :=
  { s with ledstring := s.ledstring.setChannel s.activeChannel c }

/-! ## Memory primitives -/

/-- C `memcpy(dst, src, n)` on byte contents, `n` being the `int` handed over as
the size: the first `n` bytes of `dst` become those of `src` and the rest of
`dst` is kept.  `none` is the memory fault: `n` negative (a size of at least
`2^31` once converted to `size_t`), or more than `src` holds, or more than `dst`
holds (always so for `n > 0` through a null or released pointer). -/
def memcpy (dst src : List Nat) (n : Int) : Option (List Nat) :=
  if 0 ≤ n ∧ n.toNat ≤ src.length ∧ n.toNat ≤ dst.length then
    some (src.take n.toNat ++ dst.drop n.toNat)
  else none

/-- C `memset(dst, c, n)` on byte contents, `n` being the signed value of the
size.  `none` is the memory fault: `n` negative (huge once converted to
`size_t`) or more than `dst` holds. -/
def memset (dst : List Nat) (c : Nat) (n : Int) : Option (List Nat) :=
  if 0 ≤ n ∧ n.toNat ≤ dst.length then
    some (List.replicate n.toNat c ++ dst.drop n.toNat)
  else none

/-! ## Hardware transport -/

/-- Modelled from the spec: frame buffers the transport allocates on a
successful acquisition, zero-filled and `count` words long (`ws2811_init` of the
rpi_ws281x library is not under src/). -/
def allocate (c : ws2811_channel_t) : ws2811_channel_t :=
  { c with leds := List.replicate (sizeofLed * c.count).toNat 0 }

/-- Modelled from the spec: transport `acquire` (`ws2811_init` of the rpi_ws281x
library, not under src/).  `err` is the code the hardware acquisition comes back
with; 0 is success, and then the frame buffers exist. -/
def ws2811_init (err : Int) (s : State) : State × Int :=
  let s1 := { s with trace := s.trace ++ [Event.ws2811_init s.ledstring] }
  if err = 0 then
    ({ s1 with ledstring := { s1.ledstring with
          channel0 := allocate s1.ledstring.channel0,
          channel1 := allocate s1.ledstring.channel1 } }, 0)
  else (s1, err)

/-- Modelled from the spec: transport `awaitCompletion` (`ws2811_wait`, not under
src/); it blocks and leaves the descriptor alone. -/
def ws2811_wait (s : State) : State :=
  { s with trace := s.trace ++ [Event.ws2811_wait s.ledstring] }

/-- Modelled from the spec: transport `render` (`ws2811_render`, not under
src/); it reads the descriptor and its frame buffer. -/
def ws2811_render (s : State) : State :=
  { s with trace := s.trace ++ [Event.ws2811_render s.ledstring] }

/-- Modelled from the spec: transport `release` (`ws2811_fini`, not under src/);
the frame buffers are released. -/
def ws2811_fini (s : State) : State :=
  { s with
    trace := s.trace ++ [Event.ws2811_fini s.ledstring],
    ledstring := { s.ledstring with
      channel0 := { s.ledstring.channel0 with leds := [] },
      channel1 := { s.ledstring.channel1 with leds := [] } } }

/-! ## The exported functions -/

/-- Source `render(info)`.  `numBytes` is the C `int` of line 47: the smaller of
the cast `(int)Length` and of the `int` product `4 * count`.  When the `memcpy`
faults the process dies there, before `ws2811_wait`. -/
def render (s : State) (info : List JsValue) : State × Completion :=
  if info.length ≠ 1 then
    (s, Completion.threwTypeError "render(): missing argument.")
  else
    match info.head? with
    | some (JsValue.buffer data) =>
      let numBytes : Int := min (intOf data.length) (intOf (4 * s.active.count))
      match memcpy s.active.leds data numBytes with
      | some leds =>
        let s1 : State :=
          { s.setActive { s.active with leds := leds } with
            trace := s.trace ++ [Event.memcpy s.activeChannel numBytes] }
        let s2 := ws2811_wait s1
        let s3 := ws2811_render s2
        (s3, Completion.returned)
      | none => (s, Completion.crashed)
    | _ => (s, Completion.threwTypeError "render(): expected argument to be a Buffer.")

/-- The start of source `init`: both channels and the device get their defaults
and channel 0 becomes the active one. -/
def initDefaults (s : State) : State :=
  let channel0data := { s.channel0data with gpionum := 0, invert := 0, count := 0, brightness := 255 }
  let channel1data := { s.channel1data with gpionum := 0, invert := 0, count := 0, brightness := 255 }
  { s with
    activeChannel := 0,
    ledstring := { s.ledstring with
      freq := DEFAULT_TARGET_FREQ, dmanum := DEFAULT_DMANUM,
      channel0 := channel0data, channel1 := channel1data },
    channel0data := channel0data,
    channel1data := channel1data }

/-- First part of the `config` block of source `init`: the device-wide options
`frequency` and `dmaNum`. -/
def configDevice (s : State) (config : Config) : State :=
  let s1 : State := match config.frequency with
    | some v => { s with ledstring := { s.ledstring with freq := Uint32Value v } }
    | none => s
  match config.dmaNum with
  | some v => { s1 with ledstring := { s1.ledstring with dmanum := Int32Value v } }
  | none => s1

/-- Second part of the `config` block: the option `pwmChannel`.  The flag is
`false` when the source throws "invalid pwmChannel" and returns. -/
def configPwmChannel (s : State) (config : Config) : State × Bool :=
  match config.pwmChannel with
  | some v =>
    let pwmChannel := Int32Value v
    if pwmChannel = 1 then ({ s with activeChannel := 1 }, true)
    else if pwmChannel ≠ 0 then (s, false)
    else (s, true)
  | none => (s, true)

/-- Third part of the `config` block: the options `gpioPin`, `invert` and
`brightness`, all written to `ledstring.channel[activeChannel]`. -/
def configChannel (s : State) (config : Config) : State :=
  let s1 : State := match config.gpioPin with
    | some v => s.setActive { s.active with gpionum := Int32Value v }
    | none => s.setActive { s.active with gpionum := DEFAULT_CH0_GPIO_PIN }
  let s2 : State := match config.invert with
    | some v => s1.setActive { s1.active with invert := Int32Value v }
    | none => s1
  match config.brightness with
  | some v => s2.setActive { s2.active with brightness := Int32Value v }
  | none => s2

/-- The block of source `init` that reads the `config` object, its three parts
in order.  The flag is `false` when the block leaves through the `pwmChannel`
exception, before the third part. -/
def initConfig (s : State) (config : Config) : State × Bool :=
  let r := configPwmChannel (configDevice s config) config
  if r.2 = false then (r.1, false)
  else (configChannel r.1 config, true)

/-- The test `info.Length() >= 2 && info[1]->IsObject()` of source `init` and
the `config` block it guards; `rest` holds the arguments after the first. -/
def initOptions (s : State) (rest : List JsValue) : State × Bool :=
  match rest.head? with
  | some arg1 =>
    match arg1.asObject with
    | some config => initConfig s config
    | none => (s, true)
  | none => (s, true)

/-- Source `init(info)`; `err` is what `ws2811_init` answers when it is reached.
The tests `info.Length() < 1` and `info[0]->IsNumber()` are the first and the
last case of the match. -/
def init (err : Int) (s : State) (info : List JsValue) : State × Completion :=
  let s0 := initDefaults s
  match info with
  | [] => (s0, Completion.threwTypeError "init(): expected at least 1 argument")
  | JsValue.number ledCount :: rest =>
    let r := initOptions s0 rest
    if r.2 = false then
      (r.1, Completion.threwTypeError "init(): invalid pwmChannel (has to be 0 or 1)")
    else
      let s1 := r.1
      let s2 : State := s1.setActive { s1.active with count := Int32Value ledCount }
      let r2 := ws2811_init err s2
      if r2.2 ≠ 0 then
        (r2.1, Completion.threwError "init(): initialization failed. sorry – no idea why.")
      else (r2.1, Completion.returned)
  | _ :: _ => (s0, Completion.threwTypeError "init(): argument 0 is not a number")

/-- Source `setBrightness(info)`. -/
def setBrightness (s : State) (info : List JsValue) : State × Completion :=
  if info.length ≠ 1 then
    (s, Completion.threwError "setBrightness(): no value given")
  else
    match info.head? with
    | some (JsValue.number v) =>
      (s.setActive { s.active with brightness := Int32Value v },
       Completion.returned)
    | _ => (s, Completion.threwTypeError "setBrightness(): argument 0 is not a number")

/-- Source `reset(info)`; the arguments are not looked at.  The size of the
`memset` is `sizeof(*leds) * count`.  When the `memset` faults the process dies
there, before `ws2811_render`. -/
def reset (s : State) (_info : List JsValue) : State × Completion :=
  let numBytes : Int := sizeofLed * s.active.count
  match memset s.active.leds 0 numBytes with
  | some leds =>
    let s1 : State :=
      { s.setActive { s.active with leds := leds } with
        trace := s.trace ++ [Event.memset s.activeChannel numBytes] }
    let s2 := ws2811_render s1
    let s3 := ws2811_wait s2
    let s4 := ws2811_fini s3
    (s4, Completion.returned)
  | none => (s, Completion.crashed)


/-! ## Sequences of calls -/

/-- One call of the single-channel API after `init`. -/
inductive Call where
  | render (info : List JsValue)
  | setBrightness (info : List JsValue)
  | reset (info : List JsValue)
deriving DecidableEq, Repr

/-- State after one call, whichever way the call ends.  A call in which the
process dies leaves the state as it was; the calls listed after it are calls
the real process no longer makes. -/
def Call.run (s : State) : Call → State
  | Call.render info => (RpiWs281x.render s info).1
  | Call.setBrightness info => (RpiWs281x.setBrightness s info).1
  | Call.reset info => (RpiWs281x.reset s info).1

/-- State after a sequence of calls, in order. -/
def runCalls (s : State) (calls : List Call) : State := calls.foldl Call.run s

/-- A channel left at the defaults of `init`: pin 0, invert off, no LEDs,
brightness 255. -/
def ws2811_channel_t.isDefault (c : ws2811_channel_t) : Prop :=
  c.gpionum = 0 ∧ c.invert = 0 ∧ c.count = 0 ∧ c.brightness = 255

instance (c : ws2811_channel_t) : Decidable c.isDefault := by
  unfold ws2811_channel_t.isDefault; infer_instance

/-- Number of `ws2811_render` calls in a trace. -/
def renderCount (t : List Event) : Nat :=
  (t.filter fun e => match e with | Event.ws2811_render _ => true | _ => false).length

/-- Number of `ws2811_init` calls in a trace. -/
def initCount (t : List Event) : Nat :=
  (t.filter fun e => match e with | Event.ws2811_init _ => true | _ => false).length

/-- What holds from the `pwmChannel` option of `init` onwards: the active index
is 0 or 1, the other channel is at its defaults, and the trace is `t`. -/
structure ConfigInv (t : List Event) (s : State) : Prop where
  act : s.activeChannel = 0 ∨ s.activeChannel = 1
  other : s.nonActive.isDefault
  trace : s.trace = t

/-- Own-property lookup result after `Int32Value()`, or the value left by the
defaults when the property is absent. -/
def optInt32 (o : Option Int) (dflt : Int) : Int :=
  match o with
  | some v => Int32Value v
  | none => dflt

/-- Arguments of the call `init(ledCount, config)` where `config` has the own
property `pwmChannel: v` besides the properties of `cfg`. -/
def pwmChannelCall (ledCount v : Int) (cfg : Config) : List JsValue :=
  [JsValue.number ledCount, JsValue.object { cfg with pwmChannel := some v }]

/-- State in which `render` returns: the `numBytes` copied bytes are in place as
`leds`, then `ws2811_wait` and `ws2811_render` were called. -/
def renderDone (s : State) (numBytes : Int) (leds : List Nat) : State :=
  ws2811_render (ws2811_wait
    { s.setActive { s.active with leds := leds } with
      trace := s.trace ++ [Event.memcpy s.activeChannel numBytes] })

/-- State in which `reset` returns: the zero-filled bytes are in place as `leds`,
then `ws2811_render`, `ws2811_wait` and `ws2811_fini` were called. -/
def resetDone (s : State) (leds : List Nat) : State :=
  ws2811_fini (ws2811_wait (ws2811_render
    { s.setActive { s.active with leds := leds } with
      trace := s.trace ++ [Event.memset s.activeChannel (sizeofLed * s.active.count)] }))

/-- The state `s` with the events `t` put before its own trace. -/
def State.prepend (t : List Event) (s : State) : State :=
  { s with trace := t ++ s.trace }

/-- The scratch globals `channel0data` and `channel1data` never get a frame
buffer: their `leds` field stays null. -/
def State.scratchNull (s : State) : Prop :=
  s.channel0data.leds = [] ∧ s.channel1data.leds = []

/-! ## Basic facts -/

theorem channel_setChannel (l : ws2811_t) (i : Int) (c : ws2811_channel_t) :
    (l.setChannel i c).channel i = c := by
  unfold ws2811_t.setChannel ws2811_t.channel
  split <;> simp_all

theorem channel_setChannel_other (l : ws2811_t) (i : Int) (c : ws2811_channel_t)
    (hi : i = 0 ∨ i = 1) : (l.setChannel i c).channel (1 - i) = l.channel (1 - i) := by
  unfold ws2811_t.setChannel ws2811_t.channel
  rcases hi with h | h <;> subst h <;> simp

theorem Int32Value_of_range (v : Int) (hlo : -2147483648 ≤ v) (hhi : v < 2147483648) :
    Int32Value v = v := by
  unfold Int32Value
  omega

theorem intOf_of_range (v : Int) (hlo : -2147483648 ≤ v) (hhi : v < 2147483648) :
    intOf v = v := by
  unfold intOf
  omega

theorem numBytes_of_range (len pixelCount : Nat) (hb : len < 2147483648)
    (hfit : 4 * pixelCount < 2147483648) :
    min (intOf (len : Int)) (intOf (4 * (pixelCount : Int))) =
      ((min len (4 * pixelCount) : Nat) : Int) := by
  rw [intOf_of_range _ (by omega) (by omega), intOf_of_range _ (by omega) (by omega)]
  omega

theorem memcpy_of_le (dst src : List Nat) (n : Nat) (hs : n ≤ src.length)
    (hd : n ≤ dst.length) : memcpy dst src (n : Int) = some (src.take n ++ dst.drop n) := by
  unfold memcpy
  rw [if_pos ⟨by omega, by simpa using hs, by simpa using hd⟩]
  simp

theorem memcpy_of_neg (dst src : List Nat) (n : Int) (h : n < 0) : memcpy dst src n = none := by
  unfold memcpy
  rw [if_neg (by omega)]

theorem memset_of_le (dst : List Nat) (c n : Nat) (hd : n ≤ dst.length) :
    memset dst c (n : Int) = some (List.replicate n c ++ dst.drop n) := by
  unfold memset
  rw [if_pos ⟨by omega, by simpa using hd⟩]
  simp

theorem render_buffer_some (s : State) (b leds : List Nat)
    (h : memcpy s.active.leds b (min (intOf b.length) (intOf (4 * s.active.count))) =
      some leds) :
    render s [JsValue.buffer b] =
      (renderDone s (min (intOf b.length) (intOf (4 * s.active.count))) leds,
       Completion.returned) := by
  simp [render, renderDone, h]

theorem render_buffer_none (s : State) (b : List Nat)
    (h : memcpy s.active.leds b (min (intOf b.length) (intOf (4 * s.active.count))) = none) :
    render s [JsValue.buffer b] = (s, Completion.crashed) := by
  simp [render, h]

theorem renderDone_frame (s : State) (numBytes : Int) (leds : List Nat) :
    (renderDone s numBytes leds).activeChannel = s.activeChannel ∧
    (renderDone s numBytes leds).active = { s.active with leds := leds } ∧
    (renderDone s numBytes leds).ledstring =
      s.ledstring.setChannel s.activeChannel { s.active with leds := leds } ∧
    (renderDone s numBytes leds).trace =
      s.trace ++ [Event.memcpy s.activeChannel numBytes,
                  Event.ws2811_wait (renderDone s numBytes leds).ledstring,
                  Event.ws2811_render (renderDone s numBytes leds).ledstring] := by
  simp [renderDone, ws2811_render, ws2811_wait, State.setActive, State.active,
    channel_setChannel]

/-- What `render` does on a strip that is set up: count `pixelCount`, a frame
buffer of `4 * pixelCount` bytes, sizes within the `int` range. -/
theorem render_buffer_ok (s : State) (pixelCount : Nat) (b : List Nat)
    (hcount : s.active.count = pixelCount)
    (hlen : s.active.leds.length = 4 * pixelCount)
    (hfit : 4 * pixelCount < 2147483648) (hb : b.length < 2147483648) :
    render s [JsValue.buffer b] =
      (renderDone s ((min b.length (4 * pixelCount) : Nat) : Int)
        (b.take (min b.length (4 * pixelCount)) ++
          s.active.leds.drop (min b.length (4 * pixelCount))),
       Completion.returned) := by
  have hn : min (intOf (b.length : Int)) (intOf (4 * s.active.count)) =
      ((min b.length (4 * pixelCount) : Nat) : Int) := by
    rw [hcount]; exact numBytes_of_range _ _ hb hfit
  have hm := memcpy_of_le s.active.leds b (min b.length (4 * pixelCount))
    (Nat.min_le_left _ _) (by rw [hlen]; exact Nat.min_le_right _ _)
  rw [← hn] at hm
  rw [render_buffer_some s b _ hm, hn]

@[simp] theorem setActive_activeChannel (s : State) (c : ws2811_channel_t) :
    (s.setActive c).activeChannel = s.activeChannel := rfl

@[simp] theorem setActive_trace (s : State) (c : ws2811_channel_t) :
    (s.setActive c).trace = s.trace := rfl

@[simp] theorem setActive_active (s : State) (c : ws2811_channel_t) :
    (s.setActive c).active = c := by
  simp [State.setActive, State.active, channel_setChannel]

theorem setActive_nonActive (s : State) (c : ws2811_channel_t)
    (h : s.activeChannel = 0 ∨ s.activeChannel = 1) :
    (s.setActive c).nonActive = s.nonActive := by
  simp [State.setActive, State.nonActive, channel_setChannel_other _ _ _ h]

theorem ConfigInv.setActive {t : List Event} {s : State} (h : ConfigInv t s)
    (c : ws2811_channel_t) : ConfigInv t (s.setActive c) :=
  ⟨h.act, by rw [setActive_nonActive _ _ h.act]; exact h.other, h.trace⟩

/-! ### The `config` block of `init` -/

theorem configDevice_frame (s : State) (cfg : Config) :
    (configDevice s cfg).activeChannel = s.activeChannel ∧
    (configDevice s cfg).ledstring.channel0 = s.ledstring.channel0 ∧
    (configDevice s cfg).ledstring.channel1 = s.ledstring.channel1 ∧
    (configDevice s cfg).trace = s.trace := by
  unfold configDevice
  cases cfg.frequency <;> cases cfg.dmaNum <;> simp

theorem configPwmChannel_frame (s : State) (cfg : Config) :
    (configPwmChannel s cfg).1.ledstring = s.ledstring ∧
    (configPwmChannel s cfg).1.trace = s.trace := by
  unfold configPwmChannel
  cases cfg.pwmChannel with
  | none => simp
  | some v => simp only []; split_ifs <;> simp

theorem configPwmChannel_activeChannel (s : State) (cfg : Config)
    (hact : s.activeChannel = 0) (hok : (configPwmChannel s cfg).2 = true) :
    (configPwmChannel s cfg).1.activeChannel = optInt32 cfg.pwmChannel 0 := by
  rcases cfg with ⟨f, d, p, g, i, b⟩
  unfold configPwmChannel at hok ⊢
  unfold optInt32
  cases p with
  | none => simpa using hact
  | some v =>
    simp only [] at hok ⊢
    split_ifs at hok ⊢ with h1 h0
    · simp [h1]
    · have : Int32Value v = 0 := by simpa using h0
      simp [hact, this]

theorem configPwmChannel_ok (s : State) (cfg : Config) :
    (configPwmChannel s cfg).2 = true ↔
      (optInt32 cfg.pwmChannel 0 = 0 ∨ optInt32 cfg.pwmChannel 0 = 1) := by
  unfold configPwmChannel optInt32
  cases cfg.pwmChannel with
  | none => simp
  | some v =>
    simp only []
    split_ifs with h1 h0
    · simp [h1]
    · simp [h1, h0]
    · have : Int32Value v = 0 := by simpa using h0
      simp [this]

theorem configChannel_inv {t : List Event} {s : State} (h : ConfigInv t s) (cfg : Config) :
    ConfigInv t (configChannel s cfg) := by
  unfold configChannel
  cases cfg.gpioPin <;> cases cfg.invert <;> cases cfg.brightness <;>
    simp only [] <;> first | exact h | ((repeat apply ConfigInv.setActive); exact h)

theorem configChannel_active (s : State) (cfg : Config) :
    (configChannel s cfg).activeChannel = s.activeChannel ∧
    (configChannel s cfg).active =
      { s.active with
        gpionum := optInt32 cfg.gpioPin DEFAULT_CH0_GPIO_PIN,
        invert := optInt32 cfg.invert s.active.invert,
        brightness := optInt32 cfg.brightness s.active.brightness } := by
  unfold configChannel optInt32
  cases cfg.gpioPin <;> cases cfg.invert <;> cases cfg.brightness <;> simp

theorem configPwmChannel_act01 (s : State) (cfg : Config) (hact : s.activeChannel = 0) :
    (configPwmChannel s cfg).1.activeChannel = 0 ∨
      (configPwmChannel s cfg).1.activeChannel = 1 := by
  rcases cfg with ⟨f, d, p, g, i, b⟩
  unfold configPwmChannel
  cases p with
  | none => exact Or.inl hact
  | some v => simp only []; split_ifs <;> simp [hact]

/-- A state as `initDefaults` leaves it: channel 0 active, both channels at
their defaults. -/
theorem configPwmChannel_inv (s : State) (cfg : Config) (hact : s.activeChannel = 0)
    (h0 : s.ledstring.channel0.isDefault) (h1 : s.ledstring.channel1.isDefault) :
    ConfigInv s.trace (configPwmChannel (configDevice s cfg) cfg).1 := by
  obtain ⟨da, d0, d1, dt⟩ := configDevice_frame s cfg
  obtain ⟨pl, pt⟩ := configPwmChannel_frame (configDevice s cfg) cfg
  have hact2 := configPwmChannel_act01 (configDevice s cfg) cfg (da.trans hact)
  refine ⟨hact2, ?_, pt.trans dt⟩
  unfold State.nonActive ws2811_t.channel
  rw [pl]
  rcases hact2 with h | h <;> rw [h] <;> simp [d0, d1, h0, h1]

theorem initConfig_inv (s : State) (cfg : Config) (hact : s.activeChannel = 0)
    (h0 : s.ledstring.channel0.isDefault) (h1 : s.ledstring.channel1.isDefault) :
    ConfigInv s.trace (initConfig s cfg).1 := by
  have h := configPwmChannel_inv s cfg hact h0 h1
  unfold initConfig
  simp only []
  split_ifs
  · exact h
  · exact configChannel_inv h cfg

theorem initConfig_ok (s : State) (cfg : Config) :
    (initConfig s cfg).2 = true ↔
      (optInt32 cfg.pwmChannel 0 = 0 ∨ optInt32 cfg.pwmChannel 0 = 1) := by
  rw [← configPwmChannel_ok (configDevice s cfg) cfg]
  unfold initConfig
  simp only []
  split_ifs with h <;> simp [h]

theorem initConfig_active (s : State) (cfg : Config) (hact : s.activeChannel = 0)
    (h0 : s.ledstring.channel0.isDefault) (h1 : s.ledstring.channel1.isDefault)
    (hok : (initConfig s cfg).2 = true) :
    (initConfig s cfg).1.activeChannel = optInt32 cfg.pwmChannel 0 ∧
    (initConfig s cfg).1.active.gpionum = optInt32 cfg.gpioPin DEFAULT_CH0_GPIO_PIN ∧
    (initConfig s cfg).1.active.invert = optInt32 cfg.invert 0 ∧
    (initConfig s cfg).1.active.brightness = optInt32 cfg.brightness 255 ∧
    (initConfig s cfg).1.active.count = 0 := by
  have hinv := configPwmChannel_inv s cfg hact h0 h1
  obtain ⟨da, d0, d1, -⟩ := configDevice_frame s cfg
  obtain ⟨pl, -⟩ := configPwmChannel_frame (configDevice s cfg) cfg
  have hok2 : (configPwmChannel (configDevice s cfg) cfg).2 = true := by
    unfold initConfig at hok
    simp only [] at hok
    split_ifs at hok with h
    simpa using h
  have hw := configPwmChannel_activeChannel (configDevice s cfg) cfg (da.trans hact) hok2
  have hdef : (configPwmChannel (configDevice s cfg) cfg).1.active.isDefault := by
    unfold State.active ws2811_t.channel
    rw [pl]
    split_ifs <;> simp [d0, d1, h0, h1]
  obtain ⟨ca, cc⟩ := configChannel_active (configPwmChannel (configDevice s cfg) cfg).1 cfg
  have e : (initConfig s cfg).1 =
      configChannel (configPwmChannel (configDevice s cfg) cfg).1 cfg := by
    unfold initConfig
    simp [hok2]
  obtain ⟨g, i, c, b⟩ := hdef
  rw [e, ca, cc, hw]
  simp [i, b, c]

theorem initDefaults_frame (s : State) :
    (initDefaults s).activeChannel = 0 ∧
    (initDefaults s).ledstring.channel0.isDefault ∧
    (initDefaults s).ledstring.channel1.isDefault ∧
    (initDefaults s).trace = s.trace := by
  simp [initDefaults, ws2811_channel_t.isDefault]

theorem initDefaults_inv (s : State) : ConfigInv s.trace (initDefaults s) := by
  refine ⟨Or.inl rfl, ?_, rfl⟩
  simp [initDefaults, State.nonActive, ws2811_t.channel, ws2811_channel_t.isDefault]

theorem initOptions_inv (s : State) (rest : List JsValue) :
    ConfigInv s.trace (initOptions (initDefaults s) rest).1 := by
  obtain ⟨ha, h0, h1, ht⟩ := initDefaults_frame s
  unfold initOptions
  rcases rest with _ | ⟨a, r⟩
  · exact initDefaults_inv s
  · cases a with
    | object cfg => simpa [JsValue.asObject, ht] using initConfig_inv _ cfg ha h0 h1
    | buffer b => simpa [JsValue.asObject, ht] using initConfig_inv _ Config.empty ha h0 h1
    | number v => exact initDefaults_inv s
    | other => exact initDefaults_inv s

theorem ws2811_init_frame (err : Int) (s : State) :
    (ws2811_init err s).2 = err ∧
    (ws2811_init err s).1.activeChannel = s.activeChannel ∧
    (ws2811_init err s).1.trace = s.trace ++ [Event.ws2811_init s.ledstring] ∧
    (ws2811_init err s).1.active =
      (if err = 0 then allocate s.active else s.active) ∧
    (ws2811_init err s).1.nonActive =
      (if err = 0 then allocate s.nonActive else s.nonActive) := by
  unfold ws2811_init State.active State.nonActive ws2811_t.channel
  by_cases h : err = 0
  · subst h
    simp only [if_true]
    refine ⟨trivial, trivial, trivial, ?_, ?_⟩ <;> split_ifs <;> rfl
  · simp [h]

theorem allocate_isDefault (c : ws2811_channel_t) (h : c.isDefault) : (allocate c).isDefault := h

theorem init_number (err : Int) (s : State) (n : Int) (rest : List JsValue) :
    init err s (JsValue.number n :: rest) =
      if (initOptions (initDefaults s) rest).2 = false then
        ((initOptions (initDefaults s) rest).1,
          Completion.threwTypeError "init(): invalid pwmChannel (has to be 0 or 1)")
      else
        ((ws2811_init err ((initOptions (initDefaults s) rest).1.setActive
            { (initOptions (initDefaults s) rest).1.active with count := Int32Value n })).1,
          if err = 0 then Completion.returned
          else Completion.threwError "init(): initialization failed. sorry – no idea why.") := by
  unfold init
  simp only [(ws2811_init_frame _ _).1]
  split_ifs <;> simp_all

/-- Whichever way `init` ends, the active index is 0 or 1 and the other channel
is at its defaults. -/
theorem init_inv (err : Int) (s : State) (info : List JsValue) :
    ((init err s info).1.activeChannel = 0 ∨ (init err s info).1.activeChannel = 1) ∧
    (init err s info).1.nonActive.isDefault := by
  have hd := initDefaults_inv s
  rcases info with _ | ⟨a, rest⟩
  · exact ⟨hd.act, hd.other⟩
  · cases a with
    | number n =>
      have ho := initOptions_inv s rest
      rw [init_number]
      by_cases hflag : (initOptions (initDefaults s) rest).2 = false
      · rw [if_pos hflag]
        exact ⟨ho.act, ho.other⟩
      · rw [if_neg hflag]
        have hs := ho.setActive
          { (initOptions (initDefaults s) rest).1.active with count := Int32Value n }
        obtain ⟨-, fa, -, -, fn⟩ := ws2811_init_frame err
          ((initOptions (initDefaults s) rest).1.setActive
            { (initOptions (initDefaults s) rest).1.active with count := Int32Value n })
        refine ⟨by rw [fa]; exact hs.act, ?_⟩
        dsimp only
        rw [fn]
        split_ifs
        · exact allocate_isDefault _ hs.other
        · exact hs.other
    | buffer b => exact ⟨hd.act, hd.other⟩
    | object c => exact ⟨hd.act, hd.other⟩
    | other => exact ⟨hd.act, hd.other⟩

theorem reset_some (s : State) (info : List JsValue) (leds : List Nat)
    (h : memset s.active.leds 0 (sizeofLed * s.active.count) = some leds) :
    reset s info = (resetDone s leds, Completion.returned) := by
  simp [reset, resetDone, h]

theorem reset_none (s : State) (info : List JsValue)
    (h : memset s.active.leds 0 (sizeofLed * s.active.count) = none) :
    reset s info = (s, Completion.crashed) := by
  simp [reset, h]

theorem reset_frame (s : State) (info : List JsValue) :
    reset s info = (s, Completion.crashed) ∨
      ∃ leds, reset s info = (resetDone s leds, Completion.returned) := by
  cases h : memset s.active.leds 0 (sizeofLed * s.active.count) with
  | none => exact Or.inl (reset_none s info h)
  | some leds => exact Or.inr ⟨leds, reset_some s info leds h⟩

theorem resetDone_trace (s : State) (leds : List Nat) :
    (resetDone s leds).trace =
      s.trace ++
        [Event.memset s.activeChannel (sizeofLed * s.active.count),
         Event.ws2811_render (s.setActive { s.active with leds := leds }).ledstring,
         Event.ws2811_wait (s.setActive { s.active with leds := leds }).ledstring,
         Event.ws2811_fini (s.setActive { s.active with leds := leds }).ledstring] := by
  simp [resetDone, ws2811_fini, ws2811_wait, ws2811_render]

theorem init_object_options (s : State) (cfg : Config) (rest : List JsValue) :
    initOptions s (JsValue.object cfg :: rest) = initConfig s cfg := rfl

/-- State and completion of an `init` call that passes all argument checks and
whose hardware acquisition succeeds. -/
theorem init_success (s : State) (n : Int) (rest : List JsValue)
    (hok : (initOptions (initDefaults s) rest).2 = true) :
    (init 0 s (JsValue.number n :: rest)).2 = Completion.returned ∧
    (init 0 s (JsValue.number n :: rest)).1.activeChannel =
      (initOptions (initDefaults s) rest).1.activeChannel ∧
    (init 0 s (JsValue.number n :: rest)).1.active =
      allocate { (initOptions (initDefaults s) rest).1.active with count := Int32Value n } ∧
    (init 0 s (JsValue.number n :: rest)).1.trace =
      s.trace ++ [Event.ws2811_init ((initOptions (initDefaults s) rest).1.setActive
        { (initOptions (initDefaults s) rest).1.active with count := Int32Value n }).ledstring] := by
  obtain ⟨-, fa, ft, fc, -⟩ := ws2811_init_frame 0
    ((initOptions (initDefaults s) rest).1.setActive
      { (initOptions (initDefaults s) rest).1.active with count := Int32Value n })
  rw [init_number, if_neg (by simp [hok])]
  refine ⟨by simp, fa, ?_, ?_⟩
  · dsimp only
    rw [fc]
    simp
  · dsimp only
    rw [ft, setActive_trace, (initOptions_inv s rest).trace]

/-! ### Calls after `init` -/

theorem render_frame (s : State) (info : List JsValue) :
    (render s info).1 = s ∨
      ∃ numBytes leds, (render s info).1 = renderDone s numBytes leds := by
  rcases info with _ | ⟨a, _ | ⟨c, r⟩⟩
  · simp [render]
  · cases a with
    | buffer b =>
      cases h : memcpy s.active.leds b (min (intOf b.length) (intOf (4 * s.active.count))) with
      | none => rw [render_buffer_none s b h]; exact Or.inl rfl
      | some leds => rw [render_buffer_some s b leds h]; exact Or.inr ⟨_, _, rfl⟩
    | _ => simp [render]
  · simp [render]

theorem setBrightness_frame (s : State) (info : List JsValue) :
    (setBrightness s info).1 = s ∨
      ∃ v, (setBrightness s info).1 = s.setActive { s.active with brightness := Int32Value v } := by
  unfold setBrightness
  rcases info with _ | ⟨a, _ | ⟨c, r⟩⟩
  · simp
  · cases a with
    | number v => exact Or.inr ⟨v, by simp⟩
    | _ => simp
  · simp

theorem ws2811_fini_isDefault (s : State) (h : s.nonActive.isDefault) :
    (ws2811_fini s).nonActive.isDefault := by
  unfold ws2811_fini State.nonActive ws2811_t.channel ws2811_channel_t.isDefault at *
  dsimp only
  split_ifs at h ⊢ <;> exact h

/-- One call of `render`, `setBrightness` or `reset` keeps the active index and
leaves the other channel at its defaults. -/
theorem callRun_inv (s : State) (c : Call)
    (hact : s.activeChannel = 0 ∨ s.activeChannel = 1) (hdef : s.nonActive.isDefault) :
    (c.run s).activeChannel = s.activeChannel ∧ (c.run s).nonActive.isDefault := by
  cases c with
  | render info =>
    show (render s info).1.activeChannel = s.activeChannel ∧ (render s info).1.nonActive.isDefault
    rcases render_frame s info with h | ⟨numBytes, leds, h⟩
    · rw [h]
      exact ⟨rfl, hdef⟩
    · rw [h]
      refine ⟨rfl, ?_⟩
      have := setActive_nonActive s { s.active with leds := leds } hact
      simp only [renderDone, ws2811_render, ws2811_wait, State.nonActive] at this ⊢
      rw [this]
      exact hdef
  | setBrightness info =>
    show (setBrightness s info).1.activeChannel = s.activeChannel ∧
      (setBrightness s info).1.nonActive.isDefault
    rcases setBrightness_frame s info with h | ⟨v, h⟩
    · rw [h]
      exact ⟨rfl, hdef⟩
    · rw [h]
      exact ⟨rfl, by rw [setActive_nonActive _ _ hact]; exact hdef⟩
  | reset info =>
    show (reset s info).1.activeChannel = s.activeChannel ∧ (reset s info).1.nonActive.isDefault
    rcases reset_frame s info with h | ⟨leds, h⟩
    · rw [h]
      exact ⟨rfl, hdef⟩
    · rw [h]
      refine ⟨rfl, ws2811_fini_isDefault _ ?_⟩
      have := setActive_nonActive s { s.active with leds := leds } hact
      simp only [ws2811_render, ws2811_wait, State.nonActive] at this ⊢
      rw [this]
      exact hdef

theorem runCalls_inv (calls : List Call) (s : State)
    (hact : s.activeChannel = 0 ∨ s.activeChannel = 1) (hdef : s.nonActive.isDefault) :
    (runCalls s calls).activeChannel = s.activeChannel ∧
      (runCalls s calls).nonActive.isDefault := by
  induction calls generalizing s with
  | nil => exact ⟨rfl, hdef⟩
  | cons c cs ih =>
    obtain ⟨ha, hd⟩ := callRun_inv s c hact hdef
    obtain ⟨ha2, hd2⟩ := ih (c.run s) (by rw [ha]; exact hact) hd
    exact ⟨by simpa [runCalls] using ha2.trans ha, by simpa [runCalls] using hd2⟩

/-! ### `init` does not depend on the state it starts from -/

theorem configDevice_prepend (t : List Event) (s : State) (cfg : Config) :
    configDevice (s.prepend t) cfg = (configDevice s cfg).prepend t := by
  rcases cfg with ⟨f, d, p, g, i, b⟩
  unfold configDevice
  cases f <;> cases d <;> rfl

theorem configPwmChannel_prepend (t : List Event) (s : State) (cfg : Config) :
    configPwmChannel (s.prepend t) cfg =
      ((configPwmChannel s cfg).1.prepend t, (configPwmChannel s cfg).2) := by
  rcases cfg with ⟨f, d, p, g, i, b⟩
  unfold configPwmChannel
  cases p with
  | none => rfl
  | some v => simp only []; split_ifs <;> rfl

theorem configChannel_prepend (t : List Event) (s : State) (cfg : Config) :
    configChannel (s.prepend t) cfg = (configChannel s cfg).prepend t := by
  rcases cfg with ⟨f, d, p, g, i, b⟩
  unfold configChannel
  cases g <;> cases i <;> cases b <;> rfl

theorem initConfig_prepend (t : List Event) (s : State) (cfg : Config) :
    initConfig (s.prepend t) cfg = ((initConfig s cfg).1.prepend t, (initConfig s cfg).2) := by
  unfold initConfig
  simp only [configDevice_prepend, configPwmChannel_prepend]
  split_ifs
  · rfl
  · simp only [configChannel_prepend]

theorem initOptions_prepend (t : List Event) (s : State) (rest : List JsValue) :
    initOptions (s.prepend t) rest =
      ((initOptions s rest).1.prepend t, (initOptions s rest).2) := by
  unfold initOptions
  rcases rest with _ | ⟨a, r⟩
  · rfl
  · cases a with
    | object cfg => simp only [List.head?, JsValue.asObject, initConfig_prepend]
    | buffer b => simp only [List.head?, JsValue.asObject, initConfig_prepend]
    | number v => rfl
    | other => rfl

theorem ws2811_init_prepend (err : Int) (t : List Event) (s : State) :
    ws2811_init err (s.prepend t) =
      ((ws2811_init err s).1.prepend t, (ws2811_init err s).2) := by
  unfold ws2811_init State.prepend
  split_ifs <;> simp

theorem initDefaults_prepend (s : State)
    (h0 : s.channel0data.leds = []) (h1 : s.channel1data.leds = []) :
    initDefaults s = (initDefaults State.fresh).prepend s.trace := by
  simp [initDefaults, State.prepend, State.fresh, zeroChannel, h0, h1]

theorem init_prepend (err : Int) (s : State) (info : List JsValue)
    (h0 : s.channel0data.leds = []) (h1 : s.channel1data.leds = []) :
    init err s info =
      ((init err State.fresh info).1.prepend s.trace, (init err State.fresh info).2) := by
  have hd := initDefaults_prepend s h0 h1
  rcases info with _ | ⟨a, rest⟩
  · simp only [init, hd]
  · cases a with
    | number n =>
      rw [init_number, init_number, hd, initOptions_prepend]
      by_cases hflag : (initOptions (initDefaults State.fresh) rest).2 = false
      · rw [if_pos hflag, if_pos hflag]
      · rw [if_neg hflag, if_neg hflag]
        have e : ((initOptions (initDefaults State.fresh) rest).1.prepend s.trace).setActive
            { ((initOptions (initDefaults State.fresh) rest).1.prepend s.trace).active with
              count := Int32Value n } =
            ((initOptions (initDefaults State.fresh) rest).1.setActive
              { (initOptions (initDefaults State.fresh) rest).1.active with
                count := Int32Value n }).prepend s.trace := rfl
        simp only [e, ws2811_init_prepend]
    | buffer b => simp only [init, hd]
    | object c => simp only [init, hd]
    | other => simp only [init, hd]

theorem configDevice_scratch (s : State) (cfg : Config) :
    (configDevice s cfg).channel0data = s.channel0data ∧
      (configDevice s cfg).channel1data = s.channel1data := by
  rcases cfg with ⟨f, d, p, g, i, b⟩
  unfold configDevice
  cases f <;> cases d <;> exact ⟨rfl, rfl⟩

theorem configPwmChannel_scratch (s : State) (cfg : Config) :
    (configPwmChannel s cfg).1.channel0data = s.channel0data ∧
      (configPwmChannel s cfg).1.channel1data = s.channel1data := by
  rcases cfg with ⟨f, d, p, g, i, b⟩
  unfold configPwmChannel
  cases p with
  | none => exact ⟨rfl, rfl⟩
  | some v => simp only []; split_ifs <;> exact ⟨rfl, rfl⟩

theorem configChannel_scratch (s : State) (cfg : Config) :
    (configChannel s cfg).channel0data = s.channel0data ∧
      (configChannel s cfg).channel1data = s.channel1data := by
  rcases cfg with ⟨f, d, p, g, i, b⟩
  unfold configChannel
  cases g <;> cases i <;> cases b <;> exact ⟨rfl, rfl⟩

theorem initConfig_scratch (s : State) (cfg : Config) :
    (initConfig s cfg).1.channel0data = s.channel0data ∧
      (initConfig s cfg).1.channel1data = s.channel1data := by
  obtain ⟨d0, d1⟩ := configDevice_scratch s cfg
  obtain ⟨p0, p1⟩ := configPwmChannel_scratch (configDevice s cfg) cfg
  obtain ⟨c0, c1⟩ := configChannel_scratch (configPwmChannel (configDevice s cfg) cfg).1 cfg
  unfold initConfig
  simp only []
  split_ifs
  · exact ⟨p0.trans d0, p1.trans d1⟩
  · exact ⟨c0.trans (p0.trans d0), c1.trans (p1.trans d1)⟩

theorem initOptions_scratch (s : State) (rest : List JsValue) :
    (initOptions s rest).1.channel0data = s.channel0data ∧
      (initOptions s rest).1.channel1data = s.channel1data := by
  unfold initOptions
  rcases rest with _ | ⟨a, r⟩
  · exact ⟨rfl, rfl⟩
  · cases a with
    | object cfg => exact initConfig_scratch s cfg
    | buffer b => exact initConfig_scratch s Config.empty
    | number v => exact ⟨rfl, rfl⟩
    | other => exact ⟨rfl, rfl⟩

theorem ws2811_init_scratch (err : Int) (s : State) :
    (ws2811_init err s).1.channel0data = s.channel0data ∧
      (ws2811_init err s).1.channel1data = s.channel1data := by
  unfold ws2811_init
  split_ifs <;> exact ⟨rfl, rfl⟩

theorem init_scratchNull (err : Int) (s : State) (info : List JsValue) (h : s.scratchNull) :
    (init err s info).1.scratchNull := by
  have hd : (initDefaults s).scratchNull := h
  rcases info with _ | ⟨a, rest⟩
  · exact hd
  · cases a with
    | number n =>
      obtain ⟨o0, o1⟩ := initOptions_scratch (initDefaults s) rest
      obtain ⟨w0, w1⟩ := ws2811_init_scratch err
        ((initOptions (initDefaults s) rest).1.setActive
          { (initOptions (initDefaults s) rest).1.active with count := Int32Value n })
      have e0 : (init err s (JsValue.number n :: rest)).1.channel0data =
          (initDefaults s).channel0data := by
        rw [init_number]
        by_cases hflag : (initOptions (initDefaults s) rest).2 = false
        · rw [if_pos hflag]; exact o0
        · rw [if_neg hflag]; exact w0.trans o0
      have e1 : (init err s (JsValue.number n :: rest)).1.channel1data =
          (initDefaults s).channel1data := by
        rw [init_number]
        by_cases hflag : (initOptions (initDefaults s) rest).2 = false
        · rw [if_pos hflag]; exact o1
        · rw [if_neg hflag]; exact w1.trans o1
      unfold State.scratchNull at hd ⊢
      rw [e0, e1]
      exact hd
    | buffer b => exact hd
    | object c => exact hd
    | other => exact hd

theorem callRun_scratchNull (s : State) (c : Call) (h : s.scratchNull) :
    (c.run s).scratchNull := by
  cases c with
  | render info =>
    show (render s info).1.scratchNull
    rcases render_frame s info with e | ⟨numBytes, leds, e⟩
    · rw [e]; exact h
    · rw [e]; exact h
  | setBrightness info =>
    show (setBrightness s info).1.scratchNull
    rcases setBrightness_frame s info with e | ⟨v, e⟩
    · rw [e]; exact h
    · rw [e]; exact h
  | reset info =>
    show (reset s info).1.scratchNull
    rcases reset_frame s info with e | ⟨leds, e⟩
    · rw [e]; exact h
    · rw [e]; exact h

theorem runCalls_scratchNull (calls : List Call) (s : State) (h : s.scratchNull) :
    (runCalls s calls).scratchNull := by
  induction calls generalizing s with
  | nil => exact h
  | cons c cs ih => exact ih (c.run s) (callRun_scratchNull s c h)

/-! ## Claims -/

/-- C1 (counterexample): after a successful `init(536870912)` the strip has
`2^29` pixels and a frame buffer of `4 * 2^29` bytes; the `int` product
`4 * count` of `render` is then negative, `memcpy` gets it as its size, and
`render` of a one-byte Buffer ends with the process dead instead of a normal
return. -/
theorem render_dies_at_count_536870912 :
    (init 0 State.fresh [JsValue.number 536870912]).2 = Completion.returned ∧
    (init 0 State.fresh [JsValue.number 536870912]).1.active.count = 536870912 ∧
    (init 0 State.fresh [JsValue.number 536870912]).1.active.leds.length = 4 * 536870912 ∧
    intOf (4 * (init 0 State.fresh [JsValue.number 536870912]).1.active.count) = -2147483648 ∧
    (render (init 0 State.fresh [JsValue.number 536870912]).1 [JsValue.buffer [1]]).2 =
      Completion.crashed := by
  obtain ⟨sr, -, sc, -⟩ := init_success State.fresh 536870912 [] rfl
  have hc : (init 0 State.fresh [JsValue.number 536870912]).1.active.count = 536870912 := by
    rw [sc]
    show Int32Value 536870912 = 536870912
    decide
  have hl : (init 0 State.fresh [JsValue.number 536870912]).1.active.leds.length =
      4 * 536870912 := by
    rw [sc]
    show (List.replicate (sizeofLed * Int32Value 536870912).toNat 0).length = 4 * 536870912
    rw [List.length_replicate]
    decide
  have hw : intOf (4 * (init 0 State.fresh [JsValue.number 536870912]).1.active.count) =
      -2147483648 := by
    rw [hc]
    decide
  refine ⟨sr, hc, hl, hw, ?_⟩
  rw [render_buffer_none]
  apply memcpy_of_neg
  rw [hw]
  decide

/-- C1 (amended): for every pixel count with `4 * pixelCount < 2^31`, every frame
buffer of `4 * pixelCount` bytes and every Buffer `b` of fewer than `2^31`
bytes, `render` returns normally and leaves in the active channel's frame buffer
the first `n = min (length b) (4 * pixelCount)` bytes of `b` followed by the old
bytes from offset `n` on; the buffer keeps its size, an exact-size `b` is copied
whole, a shorter one keeps the old tail, a longer one loses its excess. -/
theorem render_copies_min (s : State) (pixelCount : Nat) (b : List Nat)
    (hcount : s.active.count = pixelCount)
    (hlen : s.active.leds.length = 4 * pixelCount)
    (hfit : 4 * pixelCount < 2147483648) (hb : b.length < 2147483648) :
    (render s [JsValue.buffer b]).2 = Completion.returned ∧
    (render s [JsValue.buffer b]).1.active.leds =
      b.take (min b.length (4 * pixelCount)) ++
        s.active.leds.drop (min b.length (4 * pixelCount)) ∧
    (render s [JsValue.buffer b]).1.active.leds.length = 4 * pixelCount ∧
    (b.length = 4 * pixelCount → (render s [JsValue.buffer b]).1.active.leds = b) ∧
    (b.length < 4 * pixelCount →
      (render s [JsValue.buffer b]).1.active.leds = b ++ s.active.leds.drop b.length) ∧
    (4 * pixelCount < b.length →
      (render s [JsValue.buffer b]).1.active.leds = b.take (4 * pixelCount)) := by
  have hr := render_buffer_ok s pixelCount b hcount hlen hfit hb
  have hleds : (render s [JsValue.buffer b]).1.active.leds =
      b.take (min b.length (4 * pixelCount)) ++
        s.active.leds.drop (min b.length (4 * pixelCount)) := by
    rw [hr]
    dsimp only
    rw [(renderDone_frame _ _ _).2.1]
  refine ⟨by rw [hr], hleds, ?_, ?_, ?_, ?_⟩
  · rw [hleds]
    simp only [List.length_append, List.length_take, List.length_drop, hlen]
    omega
  · intro h
    rw [hleds, h, Nat.min_self, ← h, List.take_length, List.drop_eq_nil_of_le (by omega)]
    simp
  · intro h
    rw [hleds, Nat.min_eq_left (Nat.le_of_lt h), List.take_length]
  · intro h
    rw [hleds, Nat.min_eq_right (Nat.le_of_lt h), List.drop_eq_nil_of_le (by omega)]
    simp

/-- Witness for C1 (amended): a strip of two pixels freshly set up (eight zero
bytes) and a three-byte buffer. -/
theorem render_copies_min_witness :
    ((init 0 State.fresh [JsValue.number 2]).1.active.count = ((2 : Nat) : Int) ∧
      (init 0 State.fresh [JsValue.number 2]).1.active.leds.length = 4 * 2 ∧
      4 * 2 < 2147483648 ∧ ([1, 2, 3] : List Nat).length < 2147483648) ∧
    (render (init 0 State.fresh [JsValue.number 2]).1 [JsValue.buffer [1, 2, 3]]).1.active.leds =
      [1, 2, 3, 0, 0, 0, 0, 0] :=
  ⟨⟨by decide, by decide, by decide, by decide⟩,
   (render_copies_min (init 0 State.fresh [JsValue.number 2]).1 2 [1, 2, 3]
      (by decide) (by decide) (by decide) (by decide)).2.1.trans (by decide)⟩

/-- C2 (counterexample): on a one-pixel strip right after `init`, `render` of
four bytes writes the frame buffer first and calls `ws2811_wait` second: the
descriptor that `ws2811_wait` receives already holds the new bytes, and the
trace of the call is not of the shape wait, copy, render. -/
theorem render_copy_precedes_wait :
    (render (init 0 State.fresh [JsValue.number 1]).1 [JsValue.buffer [9, 8, 7, 6]]).1.trace.drop 1 =
      [Event.memcpy 0 4,
       Event.ws2811_wait
        { freq := 800000, dmanum := 5,
          channel0 := { gpionum := 0, invert := 0, count := 1, brightness := 255,
                        leds := [9, 8, 7, 6] },
          channel1 := { gpionum := 0, invert := 0, count := 0, brightness := 255, leds := [] } },
       Event.ws2811_render
        { freq := 800000, dmanum := 5,
          channel0 := { gpionum := 0, invert := 0, count := 1, brightness := 255,
                        leds := [9, 8, 7, 6] },
          channel1 := { gpionum := 0, invert := 0, count := 0, brightness := 255, leds := [] } }] ∧
    ¬ ∃ (d1 d2 : ws2811_t) (ch n : Int),
      (render (init 0 State.fresh [JsValue.number 1]).1 [JsValue.buffer [9, 8, 7, 6]]).1.trace.drop 1 =
        [Event.ws2811_wait d1, Event.memcpy ch n, Event.ws2811_render d2] := by
  have h : (render (init 0 State.fresh [JsValue.number 1]).1
      [JsValue.buffer [9, 8, 7, 6]]).1.trace.drop 1 =
      [Event.memcpy 0 4,
       Event.ws2811_wait
        { freq := 800000, dmanum := 5,
          channel0 := { gpionum := 0, invert := 0, count := 1, brightness := 255,
                        leds := [9, 8, 7, 6] },
          channel1 := { gpionum := 0, invert := 0, count := 0, brightness := 255, leds := [] } },
       Event.ws2811_render
        { freq := 800000, dmanum := 5,
          channel0 := { gpionum := 0, invert := 0, count := 1, brightness := 255,
                        leds := [9, 8, 7, 6] },
          channel1 := { gpionum := 0, invert := 0, count := 0, brightness := 255, leds := [] } }] := by
    decide
  refine ⟨h, ?_⟩
  rintro ⟨d1, d2, ch, n, h2⟩
  rw [h] at h2
  simp at h2

/-- C2 (amended): on a strip that is set up (pixel count `pixelCount`, a frame
buffer of `4 * pixelCount` bytes, `4 * pixelCount < 2^31`), every `render` call
with a Buffer of fewer than `2^31` bytes returns normally and appends to the
trace, in this order, the copy into the active channel's frame buffer, then
`ws2811_wait`, then `ws2811_render`; both transport calls see the descriptor
that already holds the copied bytes. -/
theorem render_trace_order (s : State) (pixelCount : Nat) (b : List Nat)
    (hcount : s.active.count = pixelCount)
    (hlen : s.active.leds.length = 4 * pixelCount)
    (hfit : 4 * pixelCount < 2147483648) (hb : b.length < 2147483648) :
    (render s [JsValue.buffer b]).2 = Completion.returned ∧
    (render s [JsValue.buffer b]).1.trace =
      s.trace ++
        [Event.memcpy s.activeChannel ((min b.length (4 * pixelCount) : Nat) : Int),
         Event.ws2811_wait (render s [JsValue.buffer b]).1.ledstring,
         Event.ws2811_render (render s [JsValue.buffer b]).1.ledstring] ∧
    (render s [JsValue.buffer b]).1.ledstring =
      s.ledstring.setChannel s.activeChannel
        { s.active with
          leds := b.take (min b.length (4 * pixelCount)) ++
            s.active.leds.drop (min b.length (4 * pixelCount)) } := by
  have hr := render_buffer_ok s pixelCount b hcount hlen hfit hb
  obtain ⟨-, -, fl, ft⟩ := renderDone_frame s ((min b.length (4 * pixelCount) : Nat) : Int)
    (b.take (min b.length (4 * pixelCount)) ++
      s.active.leds.drop (min b.length (4 * pixelCount)))
  rw [hr]
  exact ⟨rfl, ft, fl⟩

/-- Witness for C2 (amended): a one-pixel strip freshly set up and a frame of
four bytes. -/
theorem render_trace_order_witness :
    ((init 0 State.fresh [JsValue.number 1]).1.active.count = ((1 : Nat) : Int) ∧
      (init 0 State.fresh [JsValue.number 1]).1.active.leds.length = 4 * 1 ∧
      4 * 1 < 2147483648 ∧ ([9, 8, 7, 6] : List Nat).length < 2147483648) ∧
    (render (init 0 State.fresh [JsValue.number 1]).1 [JsValue.buffer [9, 8, 7, 6]]).1.trace =
      (init 0 State.fresh [JsValue.number 1]).1.trace ++
        [Event.memcpy (init 0 State.fresh [JsValue.number 1]).1.activeChannel
          ((min ([9, 8, 7, 6] : List Nat).length (4 * 1) : Nat) : Int),
         Event.ws2811_wait
          (render (init 0 State.fresh [JsValue.number 1]).1
            [JsValue.buffer [9, 8, 7, 6]]).1.ledstring,
         Event.ws2811_render
          (render (init 0 State.fresh [JsValue.number 1]).1
            [JsValue.buffer [9, 8, 7, 6]]).1.ledstring] :=
  ⟨⟨by decide, by decide, by decide, by decide⟩,
   (render_trace_order (init 0 State.fresh [JsValue.number 1]).1 1 [9, 8, 7, 6]
      (by decide) (by decide) (by decide) (by decide)).2.1⟩

/-- C4 (counterexample): with `pwmChannel: 4294967297`, a value that is neither
0 nor 1, `init` returns normally and makes channel 1 the active one. -/
theorem init_accepts_pwmChannel_4294967297 :
    (init 0 State.fresh (pwmChannelCall 100 4294967297 Config.empty)).2 = Completion.returned ∧
    (init 0 State.fresh (pwmChannelCall 100 4294967297 Config.empty)).1.activeChannel = 1 ∧
    (init 0 State.fresh (pwmChannelCall 100 4294967297 Config.empty)).1.active.count = 100 := by
  refine ⟨by decide, by decide, by decide⟩

/-- C4 (amended): let `w` be `v` after the 32-bit conversion `Int32Value`
(`w = v` whenever `-2^31 ≤ v < 2^31`).  For every state, pixel count and other
options, `init(pixelCount, {pwmChannel: v, ...})` throws the "invalid
pwmChannel" TypeError, before any transport call, when `w` is neither 0 nor 1;
when `w` is 0 or 1 and the acquisition succeeds it returns normally with active
index `w`, and the pixel count, pin, invert and brightness are on that channel
while the other channel keeps its defaults.  The active index is 0 or 1 in
every case. -/
theorem init_pwmChannel_int32 (err : Int) (s : State) (n v : Int) (cfg : Config) :
    ((init err s (pwmChannelCall n v cfg)).1.activeChannel = 0 ∨
      (init err s (pwmChannelCall n v cfg)).1.activeChannel = 1) ∧
    (-2147483648 ≤ v → v < 2147483648 → Int32Value v = v) ∧
    (Int32Value v ≠ 0 → Int32Value v ≠ 1 →
      (init err s (pwmChannelCall n v cfg)).2 =
        Completion.threwTypeError "init(): invalid pwmChannel (has to be 0 or 1)" ∧
      (init err s (pwmChannelCall n v cfg)).1.trace = s.trace) ∧
    (Int32Value v = 0 ∨ Int32Value v = 1 → err = 0 →
      (init err s (pwmChannelCall n v cfg)).2 = Completion.returned ∧
      (init err s (pwmChannelCall n v cfg)).1.activeChannel = Int32Value v ∧
      (init err s (pwmChannelCall n v cfg)).1.active.count = Int32Value n ∧
      (init err s (pwmChannelCall n v cfg)).1.active.gpionum =
        optInt32 cfg.gpioPin DEFAULT_CH0_GPIO_PIN ∧
      (init err s (pwmChannelCall n v cfg)).1.active.invert = optInt32 cfg.invert 0 ∧
      (init err s (pwmChannelCall n v cfg)).1.active.brightness = optInt32 cfg.brightness 255 ∧
      (init err s (pwmChannelCall n v cfg)).1.nonActive.isDefault ∧
      initCount (init err s (pwmChannelCall n v cfg)).1.trace = initCount s.trace + 1) := by
  obtain ⟨ha, h0, h1, ht⟩ := initDefaults_frame s
  have hflag := initConfig_ok (initDefaults s) { cfg with pwmChannel := some v }
  simp only [optInt32] at hflag
  refine ⟨(init_inv err s _).1, Int32Value_of_range v, ?_, ?_⟩
  · intro hv0 hv1
    have hf : (initConfig (initDefaults s) { cfg with pwmChannel := some v }).2 = false := by
      cases hb : (initConfig (initDefaults s) { cfg with pwmChannel := some v }).2
      · rfl
      · rcases hflag.mp hb with h | h
        · exact absurd h hv0
        · exact absurd h hv1
    unfold pwmChannelCall
    rw [init_number, init_object_options, if_pos hf]
    exact ⟨rfl, ((initConfig_inv _ _ ha h0 h1).trace).trans ht⟩
  · intro hv herr
    subst herr
    have hok := hflag.mpr hv
    obtain ⟨ca, cg, ci, cb, -⟩ := initConfig_active (initDefaults s) _ ha h0 h1 hok
    simp only [optInt32] at ca cg ci cb
    obtain ⟨sr, sa, sc, st⟩ := init_success s n [JsValue.object { cfg with pwmChannel := some v }]
      (by rw [init_object_options]; exact hok)
    rw [init_object_options] at sa sc st
    unfold pwmChannelCall
    refine ⟨sr, sa.trans ca, ?_, ?_, ?_, ?_, (init_inv 0 s _).2, ?_⟩
    · rw [sc]; rfl
    · rw [sc]; exact cg
    · rw [sc]; exact ci
    · rw [sc]; exact cb
    · rw [st]; simp [initCount]

/-- Witness for C4 (amended): `pwmChannel: 2` is refused, `pwmChannel: 1` with a
successful acquisition selects channel 1. -/
theorem init_pwmChannel_int32_witness :
    ((Int32Value 2 ≠ 0 ∧ Int32Value 2 ≠ 1) ∧
      (init 0 State.fresh (pwmChannelCall 100 2 Config.empty)).2 =
        Completion.threwTypeError "init(): invalid pwmChannel (has to be 0 or 1)") ∧
    ((Int32Value 1 = 0 ∨ Int32Value 1 = 1) ∧
      (init 0 State.fresh (pwmChannelCall 100 1 Config.empty)).1.activeChannel = Int32Value 1) ∧
    ((-2147483648 : Int) ≤ 1 ∧ (1 : Int) < 2147483648 ∧ Int32Value 1 = 1) :=
  ⟨⟨⟨by decide, by decide⟩,
    ((init_pwmChannel_int32 0 State.fresh 100 2 Config.empty).2.2.1
      (by decide) (by decide)).1⟩,
   ⟨by decide,
    ((init_pwmChannel_int32 0 State.fresh 100 1 Config.empty).2.2.2
      (by decide) rfl).2.1⟩,
   ⟨by decide, by decide,
    (init_pwmChannel_int32 0 State.fresh 100 1 Config.empty).2.1 (by decide) (by decide)⟩⟩

/-- C6 (the code at the failing input): `init(ledCount)` without an options
argument leaves the pin of the active channel 0 at 0, whereas the same call
with an options object that has no `gpioPin` sets it to
`DEFAULT_CH0_GPIO_PIN`, which is 18. -/
theorem init_without_options_pin (err : Int) (s : State) (n : Int) :
    (init err s [JsValue.number n]).1.activeChannel = 0 ∧
    (init err s [JsValue.number n]).1.active.gpionum = 0 ∧
    (init err s [JsValue.number n]).1.active.gpionum ≠ DEFAULT_CH0_GPIO_PIN ∧
    (init err s [JsValue.number n, JsValue.object Config.empty]).1.active.gpionum =
      DEFAULT_CH0_GPIO_PIN ∧
    DEFAULT_CH0_GPIO_PIN = 18 := by
  obtain ⟨ha, h0, h1, -⟩ := initDefaults_frame s
  have hpin : (init err s [JsValue.number n]).1.activeChannel = 0 ∧
      (init err s [JsValue.number n]).1.active.gpionum = 0 := by
    rw [init_number]
    have e : initOptions (initDefaults s) [] = (initDefaults s, true) := rfl
    obtain ⟨-, fa, -, fc, -⟩ := ws2811_init_frame err
      ((initDefaults s).setActive { (initDefaults s).active with count := Int32Value n })
    rw [e]
    simp only [Bool.true_eq_false, if_false]
    refine ⟨fa.trans ha, ?_⟩
    have hz : (initDefaults s).active.gpionum = 0 := by
      simpa [State.active, ws2811_t.channel, ha] using h0.1
    rw [fc]
    split_ifs <;> simpa [allocate] using hz
  have hobj : (init err s [JsValue.number n, JsValue.object Config.empty]).1.active.gpionum =
      DEFAULT_CH0_GPIO_PIN := by
    have hok : (initConfig (initDefaults s) Config.empty).2 = true :=
      (initConfig_ok _ _).mpr (Or.inl rfl)
    obtain ⟨-, cg, -, -, -⟩ := initConfig_active (initDefaults s) Config.empty ha h0 h1 hok
    obtain ⟨-, -, -, fc, -⟩ := ws2811_init_frame err
      ((initConfig (initDefaults s) Config.empty).1.setActive
        { (initConfig (initDefaults s) Config.empty).1.active with count := Int32Value n })
    rw [init_number, init_object_options, if_neg (by simp [hok])]
    dsimp only
    rw [fc]
    split_ifs <;> simpa [allocate] using cg
  refine ⟨hpin.1, hpin.2, ?_, hobj, rfl⟩
  rw [hpin.2]
  decide

/-- C7 (counterexample): `setBrightness(4294967596)` on a one-pixel strip stores
300, not 4294967596. -/
theorem setBrightness_wraps :
    (setBrightness (init 0 State.fresh [JsValue.number 1]).1
      [JsValue.number 4294967596]).2 = Completion.returned ∧
    (setBrightness (init 0 State.fresh [JsValue.number 1]).1
      [JsValue.number 4294967596]).1.active.brightness = 300 ∧
    (setBrightness (init 0 State.fresh [JsValue.number 1]).1
      [JsValue.number 4294967596]).1.active.brightness ≠ 4294967596 := by
  refine ⟨by decide, by decide, by decide⟩

/-- C7 (amended): for every integer `v`, `setBrightness(v)` returns normally and
stores in the active channel's brightness the 32-bit conversion `Int32Value v`,
which is `v` itself whenever `-2^31 ≤ v < 2^31` (300 stays 300: no clamping to
0..255); it makes no transport call and changes nothing else: the other fields
of the active channel, the other channel, frequency, DMA number and active
index stay as they were. -/
theorem setBrightness_int32 (s : State) (v : Int)
    (hact : s.activeChannel = 0 ∨ s.activeChannel = 1) :
    (setBrightness s [JsValue.number v]).2 = Completion.returned ∧
    (setBrightness s [JsValue.number v]).1.active =
      { s.active with brightness := Int32Value v } ∧
    (-2147483648 ≤ v → v < 2147483648 →
      (setBrightness s [JsValue.number v]).1.active.brightness = v) ∧
    (setBrightness s [JsValue.number v]).1.trace = s.trace ∧
    (setBrightness s [JsValue.number v]).1.nonActive = s.nonActive ∧
    (setBrightness s [JsValue.number v]).1.ledstring.freq = s.ledstring.freq ∧
    (setBrightness s [JsValue.number v]).1.ledstring.dmanum = s.ledstring.dmanum ∧
    (setBrightness s [JsValue.number v]).1.activeChannel = s.activeChannel := by
  have e : setBrightness s [JsValue.number v] =
      (s.setActive { s.active with brightness := Int32Value v }, Completion.returned) := by
    simp [setBrightness]
  rw [e]
  refine ⟨rfl, setActive_active _ _, ?_, rfl, setActive_nonActive _ _ hact, ?_, ?_, rfl⟩
  · intro hlo hhi
    rw [setActive_active]
    exact Int32Value_of_range v hlo hhi
  · unfold State.setActive ws2811_t.setChannel
    dsimp only
    split_ifs <;> rfl
  · unfold State.setActive ws2811_t.setChannel
    dsimp only
    split_ifs <;> rfl

/-- Witness for C7 (amended): `setBrightness(300)` on a one-pixel strip. -/
theorem setBrightness_int32_witness :
    ((init 0 State.fresh [JsValue.number 1]).1.activeChannel = 0 ∨
      (init 0 State.fresh [JsValue.number 1]).1.activeChannel = 1) ∧
    ((-2147483648 : Int) ≤ 300 ∧ (300 : Int) < 2147483648) ∧
    (setBrightness (init 0 State.fresh [JsValue.number 1]).1
      [JsValue.number 300]).1.active.brightness = 300 :=
  ⟨by decide, ⟨by decide, by decide⟩,
   (setBrightness_int32 (init 0 State.fresh [JsValue.number 1]).1 300 (by decide)).2.2.1
     (by decide) (by decide)⟩

/-- C8: after every `init`, whatever its arguments and in particular after every
one that returns normally, the channel that is not active has pin 0, invert 0,
count 0 and brightness 255, and after every sequence of `render`,
`setBrightness` and `reset` calls (with any arguments) the active index is the
same and that other channel still has exactly these values. -/
theorem nonActive_channel_stays_default (err : Int) (s : State) (info : List JsValue)
    (calls : List Call) :
    (init err s info).1.nonActive.isDefault ∧
    (runCalls (init err s info).1 calls).activeChannel = (init err s info).1.activeChannel ∧
    (runCalls (init err s info).1 calls).nonActive.gpionum = 0 ∧
    (runCalls (init err s info).1 calls).nonActive.invert = 0 ∧
    (runCalls (init err s info).1 calls).nonActive.count = 0 ∧
    (runCalls (init err s info).1 calls).nonActive.brightness = 255 := by
  obtain ⟨hact, hdef⟩ := init_inv err s info
  obtain ⟨ha, hd⟩ := runCalls_inv calls (init err s info).1 hact hdef
  exact ⟨hdef, ha, hd.1, hd.2.1, hd.2.2.1, hd.2.2.2⟩

/-- C9 (counterexample): a second `init`, called right after a successful
`init(10)` with no reset in between, returns normally, calls `ws2811_init` a
second time and replaces the stored descriptor (count 20 and pin 12 instead of
count 10 and pin 0). -/
theorem init_twice_accepted :
    (init 0 State.fresh [JsValue.number 10]).2 = Completion.returned ∧
    (init 0 (init 0 State.fresh [JsValue.number 10]).1
      [JsValue.number 20, JsValue.object { Config.empty with gpioPin := some 12 }]).2 =
      Completion.returned ∧
    initCount (init 0 (init 0 State.fresh [JsValue.number 10]).1
      [JsValue.number 20, JsValue.object { Config.empty with gpioPin := some 12 }]).1.trace = 2 ∧
    (init 0 State.fresh [JsValue.number 10]).1.active.count = 10 ∧
    (init 0 State.fresh [JsValue.number 10]).1.active.gpionum = 0 ∧
    (init 0 (init 0 State.fresh [JsValue.number 10]).1
      [JsValue.number 20, JsValue.object { Config.empty with gpioPin := some 12 }]).1.active.count =
      20 ∧
    (init 0 (init 0 State.fresh [JsValue.number 10]).1
      [JsValue.number 20, JsValue.object { Config.empty with gpioPin := some 12 }]).1.active.gpionum =
      12 := by
  refine ⟨by decide, by decide, by decide, by decide, by decide, by decide, by decide⟩

/-- C9 (amended): `init` is accepted in every state.  In a state reached from
the module as loaded by an `init` and any calls of `render`, `setBrightness` and
`reset`, so in particular while the controller is set up, a further `init`
ends as the same call does on the module as loaded, stores the same descriptor
and active index as it does there, and adds the same events, the call of
`ws2811_init` included, to the trace: nothing of the earlier descriptor
survives and no "already active" error exists.  With a pixel count alone and a
successful acquisition the further `init` returns normally, after one more
call of `ws2811_init`. -/
theorem init_in_any_state (err1 : Int) (info1 : List JsValue) (calls : List Call)
    (err : Int) (info : List JsValue) (n : Int) :
    (init err (runCalls (init err1 State.fresh info1).1 calls) info).2 =
      (init err State.fresh info).2 ∧
    (init err (runCalls (init err1 State.fresh info1).1 calls) info).1.ledstring =
      (init err State.fresh info).1.ledstring ∧
    (init err (runCalls (init err1 State.fresh info1).1 calls) info).1.activeChannel =
      (init err State.fresh info).1.activeChannel ∧
    (init err (runCalls (init err1 State.fresh info1).1 calls) info).1.trace =
      (runCalls (init err1 State.fresh info1).1 calls).trace ++
        (init err State.fresh info).1.trace ∧
    (init 0 (runCalls (init err1 State.fresh info1).1 calls) [JsValue.number n]).2 =
      Completion.returned ∧
    initCount (init 0 (runCalls (init err1 State.fresh info1).1 calls)
        [JsValue.number n]).1.trace =
      initCount (runCalls (init err1 State.fresh info1).1 calls).trace + 1 ∧
    (init 0 (runCalls (init err1 State.fresh info1).1 calls)
        [JsValue.number n]).1.active.count = Int32Value n := by
  have h : (runCalls (init err1 State.fresh info1).1 calls).scratchNull :=
    runCalls_scratchNull calls _ (init_scratchNull err1 State.fresh info1 ⟨rfl, rfl⟩)
  obtain ⟨sr, -, sc, st⟩ := init_success (runCalls (init err1 State.fresh info1).1 calls) n [] rfl
  refine ⟨?_, ?_, ?_, ?_, sr, ?_, ?_⟩
  · rw [init_prepend err _ info h.1 h.2]
  · rw [init_prepend err _ info h.1 h.2]; rfl
  · rw [init_prepend err _ info h.1 h.2]; rfl
  · rw [init_prepend err _ info h.1 h.2]; rfl
  · rw [st]; simp [initCount]
  · rw [sc]; rfl

/-- C10: in every state with active index 0 or 1, pixel count `n` and a frame
buffer of `4 * n` bytes, `reset` returns normally and its trace is: the zero
fill of `4 * n` bytes, then `ws2811_render`, `ws2811_wait`, `ws2811_fini`, in
this order and all three on one descriptor `d`; in `d` the active channel's
frame buffer is `4 * n` zero bytes and every other field (the rest of the active
channel, the other channel, frequency, DMA number) is as before the call. -/
theorem reset_blackout (s : State) (n : Nat) (info : List JsValue)
    (hact : s.activeChannel = 0 ∨ s.activeChannel = 1)
    (hcount : s.active.count = n) (hlen : s.active.leds.length = 4 * n) :
    ∃ d : ws2811_t,
      (reset s info).2 = Completion.returned ∧
      (reset s info).1.trace =
        s.trace ++ [Event.memset s.activeChannel (4 * n), Event.ws2811_render d,
                    Event.ws2811_wait d, Event.ws2811_fini d] ∧
      d.channel s.activeChannel = { s.active with leds := List.replicate (4 * n) 0 } ∧
      d.channel (1 - s.activeChannel) = s.nonActive ∧
      d.freq = s.ledstring.freq ∧
      d.dmanum = s.ledstring.dmanum ∧
      (reset s info).1.activeChannel = s.activeChannel := by
  have hsz : sizeofLed * s.active.count = ((4 * n : Nat) : Int) := by
    rw [hcount]; unfold sizeofLed; push_cast; rfl
  have hz : memset s.active.leds 0 (sizeofLed * s.active.count) =
      some (List.replicate (4 * n) 0) := by
    rw [hsz, memset_of_le _ _ _ (by omega), List.drop_eq_nil_of_le (by omega),
      List.append_nil]
  refine ⟨s.ledstring.setChannel s.activeChannel
    { s.active with leds := List.replicate (4 * n) 0 }, ?_, ?_, channel_setChannel _ _ _,
    channel_setChannel_other _ _ _ hact, ?_, ?_, ?_⟩
  · rw [reset_some s info _ hz]
  · rw [reset_some s info _ hz]
    dsimp only
    rw [resetDone_trace, hsz]
    push_cast
    rfl
  · unfold ws2811_t.setChannel; split_ifs <;> rfl
  · unfold ws2811_t.setChannel; split_ifs <;> rfl
  · rw [reset_some s info _ hz]
    rfl

/-- Witness for C10: a one-pixel strip holding the frame 9, 8, 7, 6. -/
theorem reset_blackout_witness :
    ((render (init 0 State.fresh [JsValue.number 1]).1
        [JsValue.buffer [9, 8, 7, 6]]).1.activeChannel = 0 ∧
      (render (init 0 State.fresh [JsValue.number 1]).1
        [JsValue.buffer [9, 8, 7, 6]]).1.active.count = ((1 : Nat) : Int) ∧
      (render (init 0 State.fresh [JsValue.number 1]).1
        [JsValue.buffer [9, 8, 7, 6]]).1.active.leds = [9, 8, 7, 6]) ∧
    ∃ d : ws2811_t,
      renderCount (reset (render (init 0 State.fresh [JsValue.number 1]).1
        [JsValue.buffer [9, 8, 7, 6]]).1 []).1.trace = 2 ∧
      (reset (render (init 0 State.fresh [JsValue.number 1]).1
        [JsValue.buffer [9, 8, 7, 6]]).1 []).1.trace.drop 5 =
        [Event.ws2811_render d, Event.ws2811_wait d, Event.ws2811_fini d] ∧
      (d.channel 0).leds = [0, 0, 0, 0] := by
  obtain ⟨d, -, ht, hd, -⟩ := reset_blackout
    (render (init 0 State.fresh [JsValue.number 1]).1 [JsValue.buffer [9, 8, 7, 6]]).1 1 []
    (Or.inl (by decide)) (by decide) (by decide)
  refine ⟨⟨by decide, by decide, by decide⟩, d, by decide, ?_, ?_⟩
  · rw [ht]
    have e : (render (init 0 State.fresh [JsValue.number 1]).1
        [JsValue.buffer [9, 8, 7, 6]]).1.trace.length = 4 := by decide
    rw [List.drop_append_eq_append_drop, List.drop_of_length_le (by omega), e]
    rfl
  · have ha : (render (init 0 State.fresh [JsValue.number 1]).1
        [JsValue.buffer [9, 8, 7, 6]]).1.activeChannel = 0 := by decide
    rw [ha] at hd
    rw [hd]
    rfl

end RpiWs281x
